import Mathlib

/-!
Shallow embedding of `main.py` of the `prometheus_to_graph` repository.

The program is a Flask app with two endpoints, `/graph` and `/stats`, that
split a compound Prometheus query on `|`, resolve a time window from `start`
and `end` tokens, execute each sub-query through an external executor
(`PrometheusConnect.custom_query_range`), resolve a display label per returned
series, and either collect plot data (charting path) or aggregate values per
label and compute descriptive statistics (statistics path).

Modelling conventions:
- Instants (`datetime`) are `Int` seconds since the epoch in UTC; `timedelta`
  is an `Int` number of seconds.  The timezone normalisation in the source
  (`replace(tzinfo=timezone.utc)`) is absorbed into this representation.
- Python `float` values are idealised as `ℚ`; a possible NaN is modelled by
  `Option ℚ` (`none` = NaN), since the only use the source makes of
  non-finite floats is the `math.isnan` filter.
- `dict` objects (`series['metric']`, `label_data`, `result`) are
  insertion-ordered association lists, exactly as CPython dicts behave.
- Fallible Python code (`raise ValueError`, library `StatisticsError`) is
  modelled with `Except`/`Option`.
- The external collaborators (the Prometheus query executor and the
  ISO-8601 parser `datetime.fromisoformat`) are parameters of the embedded
  pipeline; theorems quantify over their behaviour or instantiate a
  documented concrete model.
- The embedded `statistics` module follows CPython 3.8–3.12 (the versions
  contemporary with the source): `statistics.mode` returns the first
  most-frequent value and never raises on non-empty data;
  `statistics.quantiles` raises `StatisticsError` when given fewer than two
  data points.
-/

/-- A Python float sample value: `none` models NaN, `some q` a finite value
idealised as a rational. -/
abbrev PyFloat := Option ℚ

/-- Digits-to-integer conversion, modelling `int(match.group(1))` applied to a
run of decimal digit characters. -/
def digitsVal (ds : List Char) : Int :=
  ds.foldl (fun a c => 10 * a + ((c.toNat : Int) - ('0'.toNat : Int))) 0

/-- Python `str.split('|')`: cut the character list at every `'|'`, keeping
empty fragments (so `"" ↦ [""]`, `"a|b" ↦ ["a", "b"]`). -/
def splitPipe : List Char → List (List Char)
  | [] => [[]]
  | c :: rest =>
    let r := splitPipe rest
    if c = '|' then [] :: r
    else
      match r with
      | [] => [[c]]
      | g :: gs => (c :: g) :: gs

/-- Python `str.split('|')` on strings, used for the `query` and `label`
request parameters. -/
def pysplit (s : String) : List String :=
  (splitPipe s.toList).map (fun cs => String.mk cs)

/-- Python `str.strip()`: drop whitespace from both ends, modelling
`query.strip()`. -/
def pystrip (s : String) : String :=
  String.mk (((s.toList.dropWhile Char.isWhitespace).reverse.dropWhile
    Char.isWhitespace).reverse)

/-- Python `int()` applied to a (rational-valued) float: truncation toward
zero. -/
def pytrunc (q : ℚ) : Int :=
  (if q.num < 0 then -1 else 1) * Int.ofNat (q.num.natAbs / q.den)

/-- Integer square root by bounded search, used to model `math.sqrt` exactly
on perfect squares.  Returns `some k` with `k * k = n` when `n` is a perfect
square, and `none` otherwise. -/
def isqrt? (n : Nat) : Option Nat :=
  (List.range (n + 1)).find? (fun k => k * k == n)

/-- Model of `math.sqrt` on the rationals.  It is exact on perfect-square
rationals (in particular `ratSqrt 0 = 0`, the only square root any theorem in
this file evaluates); a positive non-square has an irrational root, which a
rational carrier cannot represent, and is mapped to `0`.  No statement below
depends on the value at a non-square. -/
def ratSqrt (q : ℚ) : ℚ :=
  if q < 0 then 0
  else
    match isqrt? q.num.natAbs, isqrt? q.den with
    | some a, some b => (a : ℚ) / (b : ℚ)
    | _, _ => 0

/-! ## Time parsing (`parse_time`, `parse_time_input`, lines 17–56) -/

/-- Embedding of `parse_time` (main.py lines 17–37).  The regular expression
`re.match(r'(\d+)([a-zA-Z]+)', value)` anchors at the start of the string
only: because the two character classes are disjoint and greedy, it matches
exactly when the string begins with a non-empty digit run followed by a
non-empty ASCII-letter run, the groups being those maximal runs, and any
trailing characters after the letter run are ignored.  The resulting
`timedelta` is modelled as its total number of seconds. -/
def parse_time (value : String) : Except String Int :=
  let cs := value.toList
  let ds := cs.takeWhile Char.isDigit
  let us := (cs.dropWhile Char.isDigit).takeWhile Char.isAlpha
  if ds.isEmpty || us.isEmpty then
    .error ("Invalid time format: " ++ value)
  else
    let amount := digitsVal ds
    let unit := String.mk us
    if unit = "sec" then .ok amount
    else if unit = "min" then .ok (60 * amount)
    else if unit = "h" then .ok (3600 * amount)
    else if unit = "day" then .ok (86400 * amount)
    else if unit = "year" then .ok (365 * 86400 * amount)
    else .error ("Unsupported time unit: " ++ unit)

/-- Embedding of `parse_time_input` (main.py lines 39–56).  `iso` is the
external ISO-8601 parser `datetime.fromisoformat`, a host-library
collaborator: `some t` models a successful parse to the instant `t`, `none`
models `ValueError`.  On the relative branch the result is `now - delta`; a
failure of both branches raises `ValueError(f"Invalid time format: {value}")`. -/
def parse_time_input (iso : String → Option Int) (now : Int) (value : String) :
    Except String Int :=
  if value = "now" then .ok now
  else
    match iso value with
    | some dt => .ok dt
    | none =>
      match parse_time value with
      | .ok delta => .ok (now - delta)
      | .error _ => .error ("Invalid time format: " ++ value)

/-- Concrete model of the external `datetime.fromisoformat` used by the closed
theorems below.  Every string that parser accepts begins with a four-digit
year (the date part of an ISO-8601 date-time is mandatory), so any token whose
first four characters are not all digits is rejected; this is the only
behaviour the theorems below exercise, as every concrete token they pass fails
that necessary condition.  A token passing the check is mapped to a fixed
instant, a case no theorem evaluates. -/
def isoModel (s : String) : Option Int :=
  if 4 ≤ s.length ∧ (s.toList.take 4).all Char.isDigit then some 0 else none

/-! ## Step calculation (`calculate_step`, lines 58–61) -/

/-- Embedding of `calculate_step` (main.py lines 58–61): the window duration
in seconds divided by `desired_points`, floored at 2, truncated by `int()`,
and rendered as a Prometheus duration string. -/
def calculate_step (start_time end_time desired_points : ℚ) : String :=
  let total_seconds := end_time - start_time
  let step_seconds := max (total_seconds / desired_points) 2
  toString (pytrunc step_seconds) ++ "s"

/-- The step formula as §4.2/§8 of the specification state it: for a window of
duration `D` seconds, `max(D/100, 2)` truncated to an integer number of
seconds. -/
def computeStep_spec (D : ℚ) : Int :=
  pytrunc (max (D / 100) 2)

/-! ## Label resolution (`graph` lines 121–130, `stats` lines 227–236) -/

/-- The fallback of the charting path (main.py lines 125–130): scan the
series's label mapping in order and return the first value whose key is not
`instance` or `job`; default `"Unknown"`. -/
def fallbackGraph : List (String × String) → String
  | [] => "Unknown"
  | (k, v) :: rest =>
    if k = "instance" ∨ k = "job" then fallbackGraph rest else v

/-- Label resolution on the charting path (main.py lines 121–130).  The guard
`if label_arg and label_arg in series['metric']` is Python truthiness: `None`
and the empty string both fall through to the fallback. -/
def resolveLabelGraph (label_arg : Option String) (metric : List (String × String)) :
    String :=
  match label_arg with
  | none => fallbackGraph metric
  | some k =>
    if k ≠ "" ∧ (metric.lookup k).isSome then (metric.lookup k).getD ""
    else fallbackGraph metric

/-- The fallback of the statistics path (main.py lines 230–236): the value of
`instance` if present, else the value of `job`, else `"Unknown"`. -/
def fallbackStats (metric : List (String × String)) : String :=
  match metric.lookup "instance" with
  | some v => v
  | none =>
    match metric.lookup "job" with
    | some v => v
    | none => "Unknown"

/-- Label resolution on the statistics path (main.py lines 227–236). -/
def resolveLabelStats (label_arg : Option String) (metric : List (String × String)) :
    String :=
  match label_arg with
  | none => fallbackStats metric
  | some k =>
    if k ≠ "" ∧ (metric.lookup k).isSome then (metric.lookup k).getD ""
    else fallbackStats metric

/-- The label-resolution fallback as §4.4 of the specification states it: the
value of the first key of the mapping that is not in the reserved set
`{instance, job}`, else the literal `"Unknown"`. -/
def fallback_spec (metric : List (String × String)) : String :=
  match metric.find? (fun kv => !(kv.1 == "instance" || kv.1 == "job")) with
  | some kv => kv.2
  | none => "Unknown"

/-- The full label-resolution precedence as §4.4 of the specification states
it: the explicit key's value when provided and present, else the first
non-reserved key's value, else `"Unknown"`. -/
def resolveLabel_spec (explicitKey : Option String) (metric : List (String × String)) :
    String :=
  match explicitKey.bind (fun k => metric.lookup k) with
  | some v => v
  | none => fallback_spec metric

/-! ## The statistics engine (`stats`, lines 248–303), following CPython's
`statistics` module -/

/-- `statistics.mean`: the arithmetic mean (CPython computes it exactly over
`Fraction`s before converting back to float; the rational value is that exact
mean). -/
def pymean (values : List ℚ) : ℚ :=
  values.sum / (values.length : ℚ)

/-- Python `sorted`, stable; modelled by insertion sort, which is also
stable. -/
def pysorted (values : List ℚ) : List ℚ :=
  values.insertionSort (· ≤ ·)

/-- `statistics.median`: middle element of the sorted data for odd length,
mean of the two middle elements for even length. -/
def pymedian (values : List ℚ) : ℚ :=
  let s := pysorted values
  let n := values.length
  if n % 2 = 1 then s.getD (n / 2) 0
  else (s.getD (n / 2 - 1) 0 + s.getD (n / 2) 0) / 2

/-- `statistics.mode` as of CPython ≥ 3.8: `Counter(data).most_common(1)`
returns the first-encountered value of maximal multiplicity, and the function
raises only on empty data (`none` here).  In particular it never signals a
tie. -/
def pymode (values : List ℚ) : Option ℚ :=
  values.find? (fun v => values.all (fun w => decide (values.count w ≤ values.count v)))

/-- `statistics.variance`: the sample variance with denominator `n - 1`
(CPython computes the sum of squared deviations exactly).  Only evaluated by
the source when the list has more than one element. -/
def pyvariance (values : List ℚ) : ℚ :=
  (values.map (fun x => (x - pymean values) ^ 2)).sum / ((values.length : ℚ) - 1)

/-- `statistics.quantiles(values, n=n, method='inclusive')` as in CPython
3.8–3.12: raises `StatisticsError` (`none` here) when `n < 1` or when the data
has fewer than two points; otherwise returns the `n - 1` cut points obtained
by linear interpolation over the sorted data, where for the `i`-th cut point
`j, delta = divmod(i * (len - 1), n)` and the value is
`(data[j] * (n - delta) + data[j + 1] * delta) / n`. -/
def pyquantiles (values : List ℚ) (n : Nat) : Option (List ℚ) :=
  if n = 0 then none
  else if values.length < 2 then none
  else
    let s := pysorted values
    let m := values.length - 1
    some ((List.range (n - 1)).map (fun i0 =>
      let i := i0 + 1
      let j := i * m / n
      let delta := i * m % n
      (s.getD j 0 * ((n : ℚ) - (delta : ℚ)) + s.getD (j + 1) 0 * (delta : ℚ)) / (n : ℚ)))

/-- One entry of the `/stats` response (main.py lines 287–303). -/
structure StatsResult where
  mean : ℚ
  median : ℚ
  mode : Option ℚ
  stdev : ℚ
  variance : ℚ
  min : ℚ
  max : ℚ
  count : Nat
  sum : ℚ
  range : ℚ
  average_deviation : ℚ
  percentile_25 : ℚ
  percentile_50 : ℚ
  percentile_75 : ℚ
  iqr : ℚ
deriving DecidableEq, Repr

/-- Python `min` over a non-empty list (the source guards emptiness before the
call). -/
def pymin : List ℚ → ℚ
  | [] => 0
  | v :: vs => vs.foldl min v

/-- Python `max` over a non-empty list. -/
def pymax : List ℚ → ℚ
  | [] => 0
  | v :: vs => vs.foldl max v

/-- The `try` block of the statistics loop (main.py lines 262–285), applied to
the NaN-filtered values of one label.  On CPython 3.8–3.12 the only statement
in the block that can raise on a non-empty float list is
`statistics.quantiles`, which needs at least two data points; an exception
makes the handler skip the label (`none`).  `statistics.mode` cannot raise
here, so the `except statistics.StatisticsError` arm that would set
`mode_value = None` is unreachable and `mode_value` is always
`pymode values`. -/
def statsBlock (values : List ℚ) : Option StatsResult :=
  let mean_value := pymean values
  match pyquantiles values 4 with
  | none => none
  | some quartiles =>
    some
      { mean := mean_value
        median := pymedian values
        mode := pymode values
        stdev := if 1 < values.length then ratSqrt (pyvariance values) else 0
        variance := if 1 < values.length then pyvariance values else 0
        min := pymin values
        max := pymax values
        count := values.length
        sum := values.sum
        range := pymax values - pymin values
        average_deviation := pymean (values.map (fun x => |x - mean_value|))
        percentile_25 := quartiles.getD 0 0
        percentile_50 := quartiles.getD 1 0
        percentile_75 := quartiles.getD 2 0
        iqr := quartiles.getD 2 0 - quartiles.getD 0 0 }

/-- Processing of one label's accumulated values (main.py lines 250–285): skip
when the raw list is empty, filter NaN values, skip when nothing remains,
otherwise run the statistics block (which itself may skip). -/
def statsForLabel (raw : List PyFloat) : Option StatsResult :=
  if raw.isEmpty then none
  else
    let values := raw.filterMap id
    if values.isEmpty then none
    else statsBlock values

/-! ## Label-data accumulation (`stats`, lines 207–245) -/

/-- The per-request accumulator `label_data`: a CPython dict from resolved
label to the list of collected values, modelled as an insertion-ordered
association list. -/
abbrev LabelData := List (String × List PyFloat)

/-- One update of `label_data` (main.py lines 241–245): extend the existing
entry in place, or append a fresh key at the end, as dict insertion does. -/
def extendLabelData (acc : LabelData) (label : String) (vals : List PyFloat) :
    LabelData :=
  match acc with
  | [] => [(label, vals)]
  | (k, vs) :: rest =>
    if k = label then (k, vs ++ vals) :: rest
    else (k, vs) :: extendLabelData rest label vals

/-- The values collected for one label, `[]` when the label is absent. -/
def valuesOf (label : String) : LabelData → List PyFloat
  | [] => []
  | (k, vs) :: rest => if k = label then vs else valuesOf label rest

/-- Accumulation of a sequence of (resolved label, extracted values)
contributions into `label_data`, in processing order. -/
def buildLabelData (items : List (String × List PyFloat)) : LabelData :=
  items.foldl (fun acc it => extendLabelData acc it.1 it.2) []

/-! ## The request pipeline (`graph` lines 67–179, `stats` lines 181–309) -/

/-- One raw series as returned by the executor: the `metric` label mapping and
the `values` list of `(timestamp, value)` samples.  `float(value[1])` is
absorbed into the `PyFloat` sample type. -/
structure RawSeries where
  metric : List (String × String)
  values : List (Int × PyFloat)
deriving DecidableEq, Repr

/-- The external query executor `PrometheusConnect.custom_query_range`,
applied to the stripped sub-query, the window bounds and the step string.
`Except.error e` models a raised transport/execution exception with message
`e`. -/
abbrev Executor := String → Int → Int → String → Except String (List RawSeries)

/-- The `label` request parameter turned into `label_args` (main.py lines
194/86): `None` and the empty string are falsy and give `[]`, otherwise the
string is split on `|`. -/
def labelArgsOf (label_tok : Option String) : List String :=
  match label_tok with
  | none => []
  | some l => if l = "" then [] else pysplit l

/-- Processing of the series of one sub-query on the statistics path (main.py
lines 226–245): resolve each series's label, extract its values and extend
`label_data`. -/
def processSeries (label_arg : Option String) (acc : LabelData)
    (data : List RawSeries) : LabelData :=
  data.foldl
    (fun a s =>
      extendLabelData a (resolveLabelStats label_arg s.metric)
        (s.values.map (fun tv => tv.2)))
    acc

/-- The sub-query loop of `/stats` (main.py lines 211–245).  The executor is
invoked per sub-query; a raised exception propagates out of the loop to the
outer handler (`Except.error`), an empty result set is logged and skipped, and
a non-empty one is folded into `label_data`. -/
def runQueriesAux (exec : Executor) (label_args : List String) (sT eT : Int)
    (step : String) : List String → Nat → LabelData → Except String LabelData
  | [], _, acc => .ok acc
  | q :: rest, i, acc =>
    match exec (pystrip q) sT eT step with
    | .error e => .error e
    | .ok data =>
      if data.isEmpty then runQueriesAux exec label_args sT eT step rest (i + 1) acc
      else
        runQueriesAux exec label_args sT eT step rest (i + 1)
          (processSeries (label_args[i]?) acc data)

/-- The per-label statistics map `result` (main.py lines 249–303): labels
whose computation is skipped are omitted. -/
def buildResult (label_data : LabelData) : List (String × StatsResult) :=
  label_data.filterMap (fun kv => (statsForLabel kv.2).map (fun r => (kv.1, r)))

/-- The observable responses of the two Flask handlers.  `text` is a bare
string (Flask serves it with status 200); `json` is `jsonify(result)` with
status 200; `jsonError s m` is `jsonify({"error": m}), s`; `image plots` is
the 200 PNG response of `/graph`, abstracted to the ordered plot data handed
to the opaque renderer. -/
inductive HttpResponse where
  | text : String → HttpResponse
  | json : List (String × StatsResult) → HttpResponse
  | jsonError : Nat → String → HttpResponse
  | image : List (String × List (Int × PyFloat)) → HttpResponse
deriving DecidableEq, Repr

/-- The HTTP status code of a response. -/
def statusOf : HttpResponse → Nat
  | .text _ => 200
  | .json _ => 200
  | .jsonError s _ => s
  | .image _ => 200

/-- The instructional string returned when the `query` parameter is missing or
empty (main.py lines 82 and 190). -/
def promptMsg : String :=
  "Please provide a Prometheus query using the 'query' parameter."

/-- The generic handler's message (main.py lines 179 and 309):
`f"An unexpected error occurred: {e}"`. -/
def unexpectedMsg (e : String) : String :=
  "An unexpected error occurred: " ++ e

/-- The body of the `/stats` handler after the `query` check (main.py lines
192–309): split the compound query, parse both time tokens, reject inverted
windows with a 400, run the sub-query loop, and serialise the per-label
statistics.  Any exception inside the `try` — a `ValueError` from time parsing
or an executor exception — reaches the generic handler and becomes a 500
`{"error": ...}` response. -/
def statsBody (iso : String → Option Int) (now : Int) (exec : Executor)
    (qs : String) (start_tok end_tok label_tok : Option String) : HttpResponse :=
  let queries := pysplit qs
  let label_args := labelArgsOf label_tok
  match parse_time_input iso now (start_tok.getD "1min") with
  | .error e => .jsonError 500 (unexpectedMsg e)
  | .ok start_time =>
    match parse_time_input iso now (end_tok.getD "now") with
    | .error e => .jsonError 500 (unexpectedMsg e)
    | .ok end_time =>
      if start_time > end_time then
        .jsonError 400 "Start time must be before end time"
      else
        let step := calculate_step (start_time : ℚ) (end_time : ℚ) 100
        match runQueriesAux exec label_args start_time end_time step queries 0 [] with
        | .error e => .jsonError 500 (unexpectedMsg e)
        | .ok label_data => .json (buildResult label_data)

/-- The `/stats` handler (main.py lines 181–309).  `request.args.get` yields
`none` for an absent parameter; `if not query_string` catches both `None` and
the empty string. -/
def stats (iso : String → Option Int) (now : Int) (exec : Executor)
    (query start_tok end_tok label_tok : Option String) : HttpResponse :=
  match query with
  | none => .text promptMsg
  | some qs =>
    if qs = "" then .text promptMsg
    else statsBody iso now exec qs start_tok end_tok label_tok

/-- The sub-query loop of `/graph` (main.py lines 102–136): per sub-query the
executor is invoked, empty results are skipped, and each returned series with
at least two samples is plotted with its resolved label, in traversal order. -/
def runGraphAux (exec : Executor) (label_args : List String) (sT eT : Int)
    (step : String) :
    List String → Nat → List (String × List (Int × PyFloat)) →
      Except String (List (String × List (Int × PyFloat)))
  | [], _, plots => .ok plots
  | q :: rest, i, plots =>
    match exec (pystrip q) sT eT step with
    | .error e => .error e
    | .ok data =>
      if data.isEmpty then runGraphAux exec label_args sT eT step rest (i + 1) plots
      else
        runGraphAux exec label_args sT eT step rest (i + 1)
          (data.foldl
            (fun ps s =>
              if s.values.length < 2 then ps
              else ps ++ [(resolveLabelGraph (label_args[i]?) s.metric, s.values)])
            plots)

/-- The body of the `/graph` handler after the `query` check (main.py lines
84–179).  The display parameters (title, axes, size, legend) are passed
through to the opaque renderer and do not influence the plotted data, which is
what the `image` response carries. -/
def graphBody (iso : String → Option Int) (now : Int) (exec : Executor)
    (qs : String) (start_tok end_tok label_tok : Option String) : HttpResponse :=
  let queries := pysplit qs
  let label_args := labelArgsOf label_tok
  match parse_time_input iso now (start_tok.getD "1min") with
  | .error e => .jsonError 500 (unexpectedMsg e)
  | .ok start_time =>
    match parse_time_input iso now (end_tok.getD "now") with
    | .error e => .jsonError 500 (unexpectedMsg e)
    | .ok end_time =>
      if start_time > end_time then
        .jsonError 400 "Start time must be before end time"
      else
        let step := calculate_step (start_time : ℚ) (end_time : ℚ) 100
        match runGraphAux exec label_args start_time end_time step queries 0 [] with
        | .error e => .jsonError 500 (unexpectedMsg e)
        | .ok plots => .image plots

/-- The `/graph` handler (main.py lines 67–179). -/
def graph (iso : String → Option Int) (now : Int) (exec : Executor)
    (query start_tok end_tok label_tok : Option String) : HttpResponse :=
  match query with
  | none => .text promptMsg
  | some qs =>
    if qs = "" then .text promptMsg
    else graphBody iso now exec qs start_tok end_tok label_tok

/-! ## Auxiliary definitions for the theorems below -/

/-- The recognised relative-time units and their durations in seconds, as
§4.1 of the specification lists them (`year` = exactly 365 days). -/
def unitSeconds (unit : String) : Option Int :=
  if unit = "sec" then some 1
  else if unit = "min" then some 60
  else if unit = "h" then some 3600
  else if unit = "day" then some 86400
  else if unit = "year" then some (365 * 86400)
  else none

/-- A concrete executor behaviour: the sub-query `"a"` raises a transport
error, every other sub-query returns one series. -/
def execFailA : Executor := fun q _ _ _ =>
  if q = "a" then .error "connection refused"
  else .ok [⟨[("instance", "i1")], [(0, some 1), (1, some 2)]⟩]

/-- A concrete executor behaviour: the sub-query `"x"` returns an empty result
set, every other sub-query raises a transport error. -/
def execFailY : Executor := fun q _ _ _ =>
  if q = "x" then .ok [] else .error "timeout"

/-- A concrete executor behaviour that always returns an empty result set
(used where the theorem shows the executor is never consulted). -/
def execEmpty : Executor := fun _ _ _ _ => .ok []

/-- A concrete executor behaviour that always raises (used as a second,
observably different executor where dispatch-independence is stated). -/
def execRaise : Executor := fun _ _ _ _ => .error "unreachable"

/-- A concrete series with a single informative label and two samples. -/
def seriesEU : RawSeries := ⟨[("region", "eu")], [(0, some 7), (1, some 8)]⟩

/-- A concrete executor behaviour: the sub-query `"a"` returns no series, the
others return `[seriesEU]`. -/
def execEmptyA : Executor := fun q _ _ _ =>
  if q = "a" then .ok [] else .ok [seriesEU]

/-- The statistics record the engine computes for the value list `[7, 7]`,
used as a concrete instance below. -/
def sampleStats77 : StatsResult :=
  { mean := 7, median := 7, mode := some 7, stdev := 0, variance := 0,
    min := 7, max := 7, count := 2, sum := 14, range := 0,
    average_deviation := 0, percentile_25 := 7, percentile_50 := 7,
    percentile_75 := 7, iqr := 0 }

/-! ## Shared lemmas -/

/-- The charting-path fallback agrees with the specification's first
non-reserved-key rule. -/
theorem fallbackGraph_eq_spec (metric : List (String × String)) :
    fallbackGraph metric = fallback_spec metric := by
  induction metric with
  | nil => rfl
  | cons kv rest ih =>
    obtain ⟨k, v⟩ := kv
    by_cases hk : k = "instance" ∨ k = "job"
    · have hb : (!(k == "instance" || k == "job")) = false := by
        rcases hk with h | h <;> simp [h]
      simp [fallbackGraph, fallback_spec, hk, List.find?, hb] at ih ⊢
      exact ih
    · have hb : (!(k == "instance" || k == "job")) = true := by
        push_neg at hk
        simp [hk.1, hk.2]
      simp [fallbackGraph, fallback_spec, hk, List.find?, hb]

/-! ## Claim C7 — step-size calculation -/

/-- C7: for a window of duration `D` seconds and the default
`desired_points = 100`, `calculate_step` renders `max(D/100, 2)` truncated to
an integer number of seconds; in particular `D = 50` gives `"2s"` and
`D = 100000` gives `"1000s"`.  Confirmed. -/
theorem C7_step_calculation :
    (∀ start_time end_time : ℚ,
      calculate_step start_time end_time 100 =
        toString (computeStep_spec (end_time - start_time)) ++ "s") ∧
    calculate_step 0 50 100 = "2s" ∧
    calculate_step 0 100000 100 = "1000s" := by
  refine ⟨fun s e => rfl, ?_, ?_⟩ <;> with_unfolding_all rfl

/-! ## Claim C10 — missing or empty query parameter -/

/-- C10: on both endpoints, an absent or empty `query` parameter yields the
bare instructional string (a 200-class plain-text response, not the
structured `{"error": ...}` object with a failure status used by every other
error path).  Confirmed. -/
theorem C10_missing_query_prompt (iso : String → Option Int) (now : Int)
    (exec : Executor) (start_tok end_tok label_tok : Option String) :
    stats iso now exec none start_tok end_tok label_tok = .text promptMsg ∧
    stats iso now exec (some "") start_tok end_tok label_tok = .text promptMsg ∧
    graph iso now exec none start_tok end_tok label_tok = .text promptMsg ∧
    graph iso now exec (some "") start_tok end_tok label_tok = .text promptMsg ∧
    statusOf (HttpResponse.text promptMsg) = 200 := by
  exact ⟨rfl, by simp [stats], rfl, by simp [graph], rfl⟩

/-! ## Claim C1 — label-resolution precedence on both paths -/

/-- C1 counterexample: on the specification's own example mapping
`{instance: "a", job: "b", region: "eu"}` with no explicit key, the charting
path resolves `"eu"` as the stated precedence demands, but the statistics
path (main.py lines 230–236) resolves `"a"` — it prefers the reserved
`instance`/`job` keys instead of excluding them, so the claim that both paths
follow the stated precedence is false. -/
theorem C1_stats_path_ce :
    resolveLabelStats none [("instance", "a"), ("job", "b"), ("region", "eu")] = "a" ∧
    resolveLabelGraph none [("instance", "a"), ("job", "b"), ("region", "eu")] = "eu" ∧
    resolveLabel_spec none [("instance", "a"), ("job", "b"), ("region", "eu")] = "eu" ∧
    resolveLabelStats none [("instance", "a"), ("job", "b"), ("region", "eu")] ≠
      resolveLabel_spec none [("instance", "a"), ("job", "b"), ("region", "eu")] := by
  refine ⟨by decide, by decide, by decide, by decide⟩

/-- C1 amended: the charting path follows the stated precedence exactly (for
any non-empty explicit key argument, empty being falsy in the source guard);
the statistics path instead falls back to the value of `instance` if present,
else `job`, else `"Unknown"`, never consulting any other key. -/
theorem C1_label_resolution_amended (label_arg : Option String)
    (metric : List (String × String)) (h : label_arg ≠ some "") :
    resolveLabelGraph label_arg metric = resolveLabel_spec label_arg metric ∧
    resolveLabelStats label_arg metric =
      (match label_arg.bind (fun k => metric.lookup k) with
       | some v => v
       | none =>
         match metric.lookup "instance", metric.lookup "job" with
         | some v, _ => v
         | none, some v => v
         | none, none => "Unknown") := by
  constructor
  · cases label_arg with
    | none => simpa [resolveLabelGraph, resolveLabel_spec] using fallbackGraph_eq_spec metric
    | some k =>
      have hk : k ≠ "" := fun hc => h (by rw [hc])
      cases hkv : metric.lookup k with
      | some v => simp [resolveLabelGraph, resolveLabel_spec, hkv, hk]
      | none =>
        simpa [resolveLabelGraph, resolveLabel_spec, hkv, hk] using
          fallbackGraph_eq_spec metric
  · cases label_arg with
    | none =>
      cases hi : metric.lookup "instance" <;> cases hj : metric.lookup "job" <;>
        simp [resolveLabelStats, fallbackStats, hi, hj]
    | some k =>
      have hk : k ≠ "" := fun hc => h (by rw [hc])
      cases hkv : metric.lookup k with
      | some v => simp [resolveLabelStats, hkv, hk]
      | none =>
        cases hi : metric.lookup "instance" <;> cases hj : metric.lookup "job" <;>
          simp [resolveLabelStats, fallbackStats, hkv, hk, hi, hj]

/-- C1 witness: the amended theorem applied to the explicit key `"region"`
over `{instance: "a", region: "eu"}`. -/
theorem C1_label_resolution_witness :
    (some "region" ≠ some "") ∧
    resolveLabelGraph (some "region") [("instance", "a"), ("region", "eu")] =
      resolveLabel_spec (some "region") [("instance", "a"), ("region", "eu")] :=
  ⟨by decide, (C1_label_resolution_amended (some "region")
    [("instance", "a"), ("region", "eu")] (by decide)).1⟩

/-! ## Claim C3 — single-point statistics -/

/-- C3, evidence of the divergence: on `values = [7]` the statistics loop
skips the label entirely — `statistics.quantiles` (CPython 3.8–3.12) raises
`StatisticsError` for fewer than two data points, the blanket `except` at
main.py line 283 catches it, and no result is emitted.  The dedicated
single-point guards in the same block are thereby dead code: `statistics.mode`
would return `7` and the `len(values) > 1` ternaries would set both `stdev`
and `variance` to `0`, exactly as the claim (and main.py lines 265–270
themselves) intend. -/
theorem C3_single_point_skipped :
    statsForLabel [some (7 : ℚ)] = none ∧
    pyquantiles [(7 : ℚ)] 4 = none ∧
    pymode [(7 : ℚ)] = some 7 ∧
    (if 1 < [(7 : ℚ)].length then ratSqrt (pyvariance [(7 : ℚ)]) else 0) = 0 ∧
    (if 1 < [(7 : ℚ)].length then pyvariance [(7 : ℚ)] else 0) = 0 := by
  refine ⟨?_, ?_, ?_, ?_, ?_⟩ <;> with_unfolding_all rfl

/-! ## Claim C5 — the mode field -/

/-- C5 counterexample: on the all-distinct value list `[1, 2]` the emitted
mode is `1` (the first-encountered most frequent value, per CPython ≥ 3.8
`statistics.mode`), not absent/null as the claim requires. -/
theorem C5_mode_ce :
    (statsForLabel [some (1 : ℚ), some 2]).map StatsResult.mode = some (some 1) ∧
    (statsForLabel [some (1 : ℚ), some 2]).map StatsResult.mode ≠ some none := by
  refine ⟨by with_unfolding_all rfl, ?_⟩
  intro hc
  rw [show (statsForLabel [some (1 : ℚ), some 2]).map StatsResult.mode = some (some 1) by
    with_unfolding_all rfl] at hc
  simp at hc

/-- Every non-empty list has an element of maximal `f`-value. -/
theorem exists_f_max {α : Type} (f : α → Nat) :
    ∀ (l : List α), l ≠ [] → ∃ v ∈ l, ∀ w ∈ l, f w ≤ f v := by
  intro l
  induction l with
  | nil => simp
  | cons a t ih =>
    intro _
    cases t with
    | nil => exact ⟨a, by simp, by simp⟩
    | cons b u =>
      obtain ⟨v, hv, hmax⟩ := ih (by simp)
      by_cases hfa : f a ≤ f v
      · refine ⟨v, by simp [hv], ?_⟩
        intro w hw
        rcases List.mem_cons.mp hw with h | h
        · rw [h]; exact hfa
        · exact hmax w h
      · refine ⟨a, by simp, ?_⟩
        intro w hw
        rcases List.mem_cons.mp hw with h | h
        · rw [h]
        · exact le_trans (hmax w h) (le_of_not_le hfa)

/-- C5 amended: whenever the statistics loop emits a result for a label, the
`mode` field is present (never null) and holds a most-frequent value of the
NaN-filtered data — CPython ≥ 3.8 `statistics.mode` returns the
first-encountered value of maximal multiplicity and never raises on non-empty
data, so the `except statistics.StatisticsError` arm that would store `None`
is unreachable. -/
theorem C5_mode_amended (raw : List PyFloat) (r : StatsResult)
    (h : statsForLabel raw = some r) :
    ∃ m, r.mode = some m ∧ m ∈ raw.filterMap id ∧
      ∀ w ∈ raw.filterMap id,
        (raw.filterMap id).count w ≤ (raw.filterMap id).count m := by
  have hmode : r.mode = pymode (raw.filterMap id) ∧ raw.filterMap id ≠ [] := by
    simp only [statsForLabel] at h
    by_cases h0 : raw.isEmpty
    · simp [h0] at h
    · simp only [h0, if_false, Bool.false_eq_true] at h
      by_cases h1 : (raw.filterMap id).isEmpty
      · simp [h1] at h
      · simp only [h1, if_false, Bool.false_eq_true, statsBlock] at h
        constructor
        · cases hq : pyquantiles (raw.filterMap id) 4 with
          | none => rw [hq] at h; simp at h
          | some qs => rw [hq] at h; simp at h; rw [← h]
        · simpa using h1
  obtain ⟨hm, hne⟩ := hmode
  obtain ⟨v, hv, hmax⟩ := exists_f_max ((raw.filterMap id).count ·) _ hne
  have hpred : ((raw.filterMap id).find? (fun x =>
      (raw.filterMap id).all (fun w =>
        decide ((raw.filterMap id).count w ≤ (raw.filterMap id).count x)))).isSome := by
    apply List.find?_isSome.mpr
    exact ⟨v, hv, List.all_eq_true.mpr (fun w hw => decide_eq_true (hmax w hw))⟩
  obtain ⟨m, hfind⟩ := Option.isSome_iff_exists.mp hpred
  refine ⟨m, ?_, List.mem_of_find?_eq_some hfind, ?_⟩
  · rw [hm]; unfold pymode; exact hfind
  · intro w hw
    have hpm : (raw.filterMap id).all (fun w =>
        decide ((raw.filterMap id).count w ≤ (raw.filterMap id).count m)) = true := by
      simpa using List.find?_some hfind
    exact of_decide_eq_true (List.all_eq_true.mp hpm w hw)

/-- C5 witness: the amended theorem applied to the raw list `[7, 7]`, whose
emitted record is `sampleStats77`. -/
theorem C5_mode_witness :
    statsForLabel [some (7 : ℚ), some 7] = some sampleStats77 ∧
    ∃ m, sampleStats77.mode = some m ∧ m ∈ [some (7 : ℚ), some 7].filterMap id ∧
      ∀ w ∈ [some (7 : ℚ), some 7].filterMap id,
        ([some (7 : ℚ), some 7].filterMap id).count w ≤
          ([some (7 : ℚ), some 7].filterMap id).count m :=
  ⟨by with_unfolding_all rfl,
   C5_mode_amended [some (7 : ℚ), some 7] sampleStats77 (by with_unfolding_all rfl)⟩

/-! ## Claim C4 — strictness of time-token parsing -/

/-- Splitting a `takeWhile`/`dropWhile` pair over an append whose left part
satisfies the predicate and whose right part starts with a failing
character. -/
theorem takeWhile_dropWhile_append (p : Char → Bool) :
    ∀ (l1 l2 : List Char), (∀ c ∈ l1, p c = true) →
      (∀ c, l2.head? = some c → p c = false) →
      (l1 ++ l2).takeWhile p = l1 ∧ (l1 ++ l2).dropWhile p = l2 := by
  intro l1
  induction l1 with
  | nil =>
    intro l2 _ h2
    cases l2 with
    | nil => simp
    | cons c t =>
      have hc := h2 c rfl
      simp [List.takeWhile, List.dropWhile, hc]
  | cons a t ih =>
    intro l2 h1 h2
    have ha : p a = true := h1 a (by simp)
    have hrec := ih l2 (fun c hc => h1 c (by simp [hc])) h2
    simp [List.takeWhile, List.dropWhile, ha, hrec.1, hrec.2]

/-- C4 counterexample: the token `"1min2"` — a valid prefix `"1min"` followed
by the trailing character `'2'` — does not fail: `parse_time` accepts it as
one minute (the source regex is not end-anchored), and the full
`parse_time_input` therefore resolves it to `now - 60` seconds instead of
raising `InvalidTimeFormat`. -/
theorem C4_partial_parse_ce :
    parse_time "1min2" = .ok 60 ∧
    parse_time_input isoModel 0 "1min2" = .ok (-60) := by
  refine ⟨?_, ?_⟩ <;> with_unfolding_all rfl

/-- Characterisation of a successful `unitSeconds` lookup. -/
theorem unitSeconds_some (u : String) (k : Int) (h : unitSeconds u = some k) :
    (u = "sec" ∧ k = 1) ∨ (u = "min" ∧ k = 60) ∨ (u = "h" ∧ k = 3600) ∨
      (u = "day" ∧ k = 86400) ∨ (u = "year" ∧ k = 365 * 86400) := by
  unfold unitSeconds at h
  split_ifs at h with w1 w2 w3 w4 w5
  all_goals simp_all

/-- Characterisation of a failing `unitSeconds` lookup. -/
theorem unitSeconds_none (u : String) (h : unitSeconds u = none) :
    u ≠ "sec" ∧ u ≠ "min" ∧ u ≠ "h" ∧ u ≠ "day" ∧ u ≠ "year" := by
  unfold unitSeconds at h
  split_ifs at h with w1 w2 w3 w4 w5
  all_goals simp_all

/-- C4 amended: `parse_time` matches the anchored-at-start pattern
`(\d+)([a-zA-Z]+)` only — a token beginning with a non-empty digit run
followed by a letter run spelling a recognised unit parses to that
amount·unit with any trailing characters after the letter run ignored (so a
valid prefix plus trailing garbage parses as the prefix, contrary to the
original claim); a token with no leading digit run or no following letter run
fails with `Invalid time format`; a token whose letter run is not a
recognised unit fails with `Unsupported time unit`. -/
theorem C4_parse_time_amended :
    (∀ (ds us rest : List Char) (k : Int),
      ds ≠ [] → ds.all Char.isDigit = true →
      us ≠ [] → us.all (fun c => c.isAlpha && !c.isDigit) = true →
      rest.head?.all (fun c => !c.isAlpha) = true →
      unitSeconds (String.mk us) = some k →
      parse_time (String.mk (ds ++ us ++ rest)) = .ok (k * digitsVal ds)) ∧
    (∀ s : String,
      (s.toList.takeWhile Char.isDigit = [] ∨
       (s.toList.dropWhile Char.isDigit).takeWhile Char.isAlpha = []) →
      parse_time s = .error ("Invalid time format: " ++ s)) ∧
    (∀ s : String,
      s.toList.takeWhile Char.isDigit ≠ [] →
      (s.toList.dropWhile Char.isDigit).takeWhile Char.isAlpha ≠ [] →
      unitSeconds (String.mk
        ((s.toList.dropWhile Char.isDigit).takeWhile Char.isAlpha)) = none →
      parse_time s = .error ("Unsupported time unit: " ++
        String.mk ((s.toList.dropWhile Char.isDigit).takeWhile Char.isAlpha))) := by
  refine ⟨?_, ?_, ?_⟩
  · intro ds us rest k hds hds2 hus hus2 hrest hk
    have hdall : ∀ c ∈ ds, Char.isDigit c = true := List.all_eq_true.mp hds2
    have husall := List.all_eq_true.mp hus2
    have husalpha : ∀ c ∈ us, Char.isAlpha c = true := by
      intro c hc
      have h := husall c hc
      simp only [Bool.and_eq_true] at h
      exact h.1
    have h2 : ∀ c, (us ++ rest).head? = some c → Char.isDigit c = false := by
      intro c hc
      cases us with
      | nil => exact absurd rfl hus
      | cons u ut =>
        simp at hc
        have hu := husall u (by simp)
        simp only [Bool.and_eq_true] at hu
        rw [← hc]
        simpa using hu.2
    have h3 : ∀ c, rest.head? = some c → Char.isAlpha c = false := by
      intro c hc
      cases rest with
      | nil => simp at hc
      | cons r t =>
        simp at hc
        rw [← hc]
        simpa using hrest
    have ht1 := takeWhile_dropWhile_append Char.isDigit ds (us ++ rest) hdall h2
    have ht2 := takeWhile_dropWhile_append Char.isAlpha us rest husalpha h3
    have hd0 : ds.isEmpty = false := by
      cases ds with
      | nil => exact absurd rfl hds
      | cons _ _ => rfl
    have hu0 : us.isEmpty = false := by
      cases us with
      | nil => exact absurd rfl hus
      | cons _ _ => rfl
    have htl : (String.mk (ds ++ us ++ rest)).toList = ds ++ (us ++ rest) := by
      simp [String.toList]
    simp only [parse_time, htl, ht1.1, ht1.2, ht2.1, hd0, hu0, Bool.or_self,
      Bool.false_eq_true, if_false]
    rcases unitSeconds_some _ _ hk with ⟨hu, rfl⟩ | ⟨hu, rfl⟩ | ⟨hu, rfl⟩ |
      ⟨hu, rfl⟩ | ⟨hu, rfl⟩
    · rw [hu, if_pos rfl, one_mul]
    · rw [hu, if_neg (by decide : ¬("min" : String) = "sec"), if_pos rfl]
    · rw [hu, if_neg (by decide : ¬("h" : String) = "sec"),
        if_neg (by decide : ¬("h" : String) = "min"), if_pos rfl]
    · rw [hu, if_neg (by decide : ¬("day" : String) = "sec"),
        if_neg (by decide : ¬("day" : String) = "min"),
        if_neg (by decide : ¬("day" : String) = "h"), if_pos rfl]
    · rw [hu, if_neg (by decide : ¬("year" : String) = "sec"),
        if_neg (by decide : ¬("year" : String) = "min"),
        if_neg (by decide : ¬("year" : String) = "h"),
        if_neg (by decide : ¬("year" : String) = "day"), if_pos rfl]
  · intro s h
    simp only [parse_time]
    rcases h with h | h
    · rw [h]
      rfl
    · rw [h]
      rw [show (([] : List Char)).isEmpty = true from rfl, Bool.or_true]
      rfl
  · intro s h1 h2 hk
    have e1 : (s.toList.takeWhile Char.isDigit).isEmpty = false := by
      cases hc : s.toList.takeWhile Char.isDigit with
      | nil => exact absurd hc h1
      | cons _ _ => rfl
    have e2 : ((s.toList.dropWhile Char.isDigit).takeWhile Char.isAlpha).isEmpty
        = false := by
      cases hc : (s.toList.dropWhile Char.isDigit).takeWhile Char.isAlpha with
      | nil => exact absurd hc h2
      | cons _ _ => rfl
    obtain ⟨w1, w2, w3, w4, w5⟩ := unitSeconds_none _ hk
    simp only [parse_time, e1, e2, Bool.or_self, Bool.false_eq_true, if_false]
    rw [if_neg w1, if_neg w2, if_neg w3, if_neg w4, if_neg w5]

/-- C4 witness: the amended theorem's success clause applied to the token
`"1min2h"` — digit run `['1']`, unit run `['m','i','n']`, trailing
`['2','h']`. -/
theorem C4_parse_time_witness :
    (['1'] ≠ ([] : List Char)) ∧
    parse_time (String.mk (['1'] ++ ['m', 'i', 'n'] ++ ['2', 'h'])) =
      .ok (60 * digitsVal ['1']) :=
  ⟨by decide, C4_parse_time_amended.1 ['1'] ['m', 'i', 'n'] ['2', 'h'] 60
    (by decide) (by decide) (by decide) (by decide) (by decide) (by decide)⟩

/-! ## Claim C8 — order-dependence of the statistics-mode merge -/

/-- Effect of one `label_data` update on one label's collected values. -/
theorem valuesOf_extendLabelData (acc : LabelData) (l label : String)
    (vs : List PyFloat) :
    valuesOf label (extendLabelData acc l vs) =
      valuesOf label acc ++ (if l = label then vs else []) := by
  induction acc with
  | nil => by_cases h : l = label <;> simp [extendLabelData, valuesOf, h]
  | cons kv rest ih =>
    obtain ⟨k, ws⟩ := kv
    by_cases hkl : k = l
    · subst hkl
      by_cases hkb : k = label
      · subst hkb; simp [extendLabelData, valuesOf]
      · simp [extendLabelData, valuesOf, hkb]
    · by_cases hkb : k = label
      · subst hkb
        have hlk : l ≠ k := fun hc => hkl hc.symm
        simp [extendLabelData, valuesOf, hkl, hlk]
      · simp [extendLabelData, valuesOf, hkl, hkb, ih]

/-- Generalised accumulation: the values a label collects are the
concatenation, in processing order, of the value lists of the contributions
resolving to it. -/
theorem valuesOf_foldl_extend (items : List (String × List PyFloat)) :
    ∀ (acc : LabelData) (label : String),
      valuesOf label (items.foldl (fun a it => extendLabelData a it.1 it.2) acc) =
        valuesOf label acc ++
          ((items.filter (fun it => it.1 == label)).map (fun it => it.2)).flatten := by
  induction items with
  | nil => intro acc label; simp
  | cons it rest ih =>
    intro acc label
    simp only [List.foldl_cons, List.filter_cons]
    by_cases h : it.1 = label
    · rw [ih, valuesOf_extendLabelData]
      simp [h, List.append_assoc]
    · rw [ih, valuesOf_extendLabelData]
      simp [h]

/-- The values one label collects in `buildLabelData`. -/
theorem valuesOf_buildLabelData (items : List (String × List PyFloat))
    (label : String) :
    valuesOf label (buildLabelData items) =
      ((items.filter (fun it => it.1 == label)).map (fun it => it.2)).flatten := by
  simpa [valuesOf] using valuesOf_foldl_extend items [] label

/-- C8 counterexample: two contributions to the same label, merged in the two
dispatch orders, give different `LabelGroup` contents — the per-label value
sequences are `[1, 2]` and `[2, 1]` — even though the two contribution lists
are permutations of each other.  The merge is therefore not
order-independent at the level of LabelGroup contents (and downstream the
difference is observable: `statistics.mode` picks the first-encountered
most frequent value). -/
theorem C8_merge_order_ce :
    [("L", [some (1 : ℚ)]), ("L", [some 2])].Perm
      [("L", [some (2 : ℚ)]), ("L", [some 1])] ∧
    buildLabelData [("L", [some (1 : ℚ)]), ("L", [some 2])] =
      [("L", [some 1, some 2])] ∧
    buildLabelData [("L", [some (2 : ℚ)]), ("L", [some 1])] =
      [("L", [some 2, some 1])] ∧
    buildLabelData [("L", [some (1 : ℚ)]), ("L", [some 2])] ≠
      buildLabelData [("L", [some (2 : ℚ)]), ("L", [some 1])] := by
  refine ⟨by decide, by decide, by decide, by decide⟩

/-- C8 amended: the statistics-mode merge is order-independent only up to
multiset equality — for any permutation of the (resolved label, values)
contributions, every label collects the same values with the same
multiplicities, though possibly in a different order. -/
theorem C8_merge_multiset_amended (items1 items2 : List (String × List PyFloat))
    (h : items1.Perm items2) (label : String) :
    (valuesOf label (buildLabelData items1) : Multiset PyFloat) =
      (valuesOf label (buildLabelData items2) : Multiset PyFloat) := by
  rw [valuesOf_buildLabelData, valuesOf_buildLabelData]
  exact Multiset.coe_eq_coe.mpr
    (((h.filter (fun it => it.1 == label)).map (fun it => it.2)).flatten)

/-- C8 witness: the amended theorem applied to the two orderings of the
counter-example's contributions. -/
theorem C8_merge_multiset_witness :
    ([("L", [some (1 : ℚ)]), ("L", [some 2])].Perm
      [("L", [some (2 : ℚ)]), ("L", [some 1])]) ∧
    (valuesOf "L" (buildLabelData [("L", [some (1 : ℚ)]), ("L", [some 2])]) :
        Multiset PyFloat) =
      (valuesOf "L" (buildLabelData [("L", [some (2 : ℚ)]), ("L", [some 1])]) :
        Multiset PyFloat) :=
  ⟨by decide, C8_merge_multiset_amended _ _ (by decide) "L"⟩

/-! ## Claim C6 — malformed start/end token -/

/-- C6 amended: a malformed `start` or `end` token does abort the `/stats`
request before any sub-query dispatch (the response is independent of the
executor's behaviour), but the `ValueError` reaches the blanket handler of
main.py lines 307–309, so the failure surfaces as the generic
`{"error": "An unexpected error occurred: ..."}` object with status 500 — a
server error, not the 4xx-class client error the claim requires. -/
theorem C6_bad_time_aborts_with_500 (iso : String → Option Int) (now : Int)
    (exec exec' : Executor) (qs : String) (hq : qs ≠ "")
    (start_tok end_tok label_tok : Option String) (e : String)
    (h : parse_time_input iso now (start_tok.getD "1min") = .error e ∨
         (∃ sT, parse_time_input iso now (start_tok.getD "1min") = .ok sT ∧
            parse_time_input iso now (end_tok.getD "now") = .error e)) :
    stats iso now exec (some qs) start_tok end_tok label_tok =
      .jsonError 500 (unexpectedMsg e) ∧
    stats iso now exec (some qs) start_tok end_tok label_tok =
      stats iso now exec' (some qs) start_tok end_tok label_tok := by
  have key : ∀ ex : Executor,
      stats iso now ex (some qs) start_tok end_tok label_tok =
        .jsonError 500 (unexpectedMsg e) := by
    intro ex
    simp only [stats, if_neg hq]
    rcases h with h1 | ⟨sT, h1, h2⟩
    · simp only [statsBody, h1]
    · simp only [statsBody, h1, h2]
  exact ⟨key exec, (key exec).trans (key exec').symm⟩

/-- C6 counterexample: the malformed start token `"bogus"` produces the
generic 500 server-error response, whose status is not in the 4xx client
class. -/
theorem C6_bad_time_status_ce :
    stats isoModel 0 execEmpty (some "up") (some "bogus") none none =
      .jsonError 500 "An unexpected error occurred: Invalid time format: bogus" ∧
    statusOf (stats isoModel 0 execEmpty (some "up") (some "bogus") none none)
      = 500 ∧
    ¬(400 ≤ statusOf (stats isoModel 0 execEmpty (some "up") (some "bogus")
        none none) ∧
      statusOf (stats isoModel 0 execEmpty (some "up") (some "bogus") none none)
        < 500) := by
  refine ⟨?_, ?_, ?_⟩
  · with_unfolding_all rfl
  · with_unfolding_all rfl
  · intro hc
    have h5 : statusOf (stats isoModel 0 execEmpty (some "up") (some "bogus")
        none none) = 500 := by with_unfolding_all rfl
    rw [h5] at hc
    exact absurd hc.2 (by decide)

/-- C6 witness: the amended theorem applied to the token `"bogus"` with two
observably different executors. -/
theorem C6_bad_time_witness :
    stats isoModel 0 execEmpty (some "up") (some "bogus") none none =
      .jsonError 500 (unexpectedMsg "Invalid time format: bogus") ∧
    stats isoModel 0 execEmpty (some "up") (some "bogus") none none =
      stats isoModel 0 execRaise (some "up") (some "bogus") none none :=
  C6_bad_time_aborts_with_500 isoModel 0 execEmpty execRaise "up" (by decide)
    (some "bogus") none none "Invalid time format: bogus"
    (Or.inl (by with_unfolding_all rfl))

/-! ## Claim C2 — executor errors on one sub-query -/

/-- An executor exception raised on any sub-query propagates out of the
`/stats` loop: once every earlier sub-query returned normally, the first
failing one aborts the whole fold with its error, regardless of the
accumulated label data or the remaining sub-queries. -/
theorem runQueriesAux_error (exec : Executor) (label_args : List String)
    (sT eT : Int) (step : String) :
    ∀ (qs1 : List String) (q : String) (qs2 : List String) (i : Nat)
      (acc : LabelData) (e : String),
      (∀ q' ∈ qs1, ∃ d, exec (pystrip q') sT eT step = .ok d) →
      exec (pystrip q) sT eT step = .error e →
      runQueriesAux exec label_args sT eT step (qs1 ++ q :: qs2) i acc =
        .error e := by
  intro qs1
  induction qs1 with
  | nil =>
    intro q qs2 i acc e _ h2
    simp only [List.nil_append, runQueriesAux, h2]
  | cons q' rest ih =>
    intro q qs2 i acc e h1 h2
    obtain ⟨d, hd⟩ := h1 q' (by simp)
    have hrest : ∀ x ∈ rest, ∃ d, exec (pystrip x) sT eT step = .ok d :=
      fun x hx => h1 x (by simp [hx])
    simp only [List.cons_append, runQueriesAux, hd]
    by_cases hde : d.isEmpty <;>
      simp [hde, ih q qs2 _ _ e hrest h2]

/-- C2 amended: when the executor raises a transport/execution error on a
sub-query, the error is not treated like an empty result — the exception
escapes the loop to the blanket handler, the whole request fails with the
generic 500 `{"error": ...}` response, later sub-queries are not dispatched
and earlier results are discarded.  Only an executor call that returns an
empty result set is logged and skipped. -/
theorem C2_executor_error_aborts (iso : String → Option Int) (now : Int)
    (exec : Executor) (qtok : String) (hq : qtok ≠ "")
    (start_tok end_tok label_tok : Option String) (sT eT : Int) (e : String)
    (qs1 : List String) (qbad : String) (qs2 : List String)
    (hsplit : pysplit qtok = qs1 ++ qbad :: qs2)
    (hs : parse_time_input iso now (start_tok.getD "1min") = .ok sT)
    (he : parse_time_input iso now (end_tok.getD "now") = .ok eT)
    (hle : ¬sT > eT)
    (hok : ∀ q' ∈ qs1, ∃ d,
      exec (pystrip q') sT eT (calculate_step (sT : ℚ) (eT : ℚ) 100) = .ok d)
    (herr : exec (pystrip qbad) sT eT (calculate_step (sT : ℚ) (eT : ℚ) 100)
      = .error e) :
    stats iso now exec (some qtok) start_tok end_tok label_tok =
      .jsonError 500 (unexpectedMsg e) := by
  simp only [stats, if_neg hq, statsBody, hs, he, if_neg hle, hsplit]
  rw [runQueriesAux_error exec (labelArgsOf label_tok) sT eT
    (calculate_step (sT : ℚ) (eT : ℚ) 100) qs1 qbad qs2 0 [] e hok herr]

/-- C2 counterexample: for the compound query `"a|b"` where the executor
raises on sub-query `"a"` and has data for `"b"`, the whole request fails
with the generic 500 error — sub-query `"b"` contributes nothing, so the
executor error is not treated like an empty result and the request does fail
because of the one sub-query. -/
theorem C2_executor_error_ce :
    stats isoModel 0 execFailA (some "a|b") (some "5sec") none none =
      .jsonError 500 "An unexpected error occurred: connection refused" ∧
    statusOf (stats isoModel 0 execFailA (some "a|b") (some "5sec") none none)
      = 500 := by
  refine ⟨?_, ?_⟩ <;> with_unfolding_all rfl

/-- C2 witness: the amended theorem applied to the compound query `"x|y"`
where `"x"` returns an empty result (and is skipped) and `"y"` raises. -/
theorem C2_executor_error_witness :
    stats isoModel 0 execFailY (some "x|y") (some "5sec") none none =
      .jsonError 500 (unexpectedMsg "timeout") :=
  C2_executor_error_aborts isoModel 0 execFailY "x|y" (by decide)
    (some "5sec") none none (-5) 0 "timeout" ["x"] "y" []
    (by decide)
    (by with_unfolding_all rfl)
    (by with_unfolding_all rfl)
    (by decide)
    (by
      intro q' hq'
      have hx : q' = "x" := by simpa using hq'
      subst hx
      exact ⟨[], by with_unfolding_all rfl⟩)
    (by with_unfolding_all rfl)

/-! ## Claim C9 — empty sub-query result in a two-query request -/

/-- C9: in a compound `/stats` request with two sub-queries where the
executor returns an empty result set for one of them and series for the
other, the empty sub-query is skipped (logged only) and the response is the
200 statistics object computed from the other sub-query's series alone — no
error is surfaced.  Confirmed; both orders of the empty/non-empty sub-query
are covered. -/
theorem C9_empty_subquery_partial_result (iso : String → Option Int) (now : Int)
    (exec : Executor) (qtok q1 q2 : String) (hq : qtok ≠ "")
    (start_tok end_tok label_tok : Option String) (sT eT : Int) (step : String)
    (ss : List RawSeries) (hne : ss ≠ [])
    (hsplit : pysplit qtok = [q1, q2])
    (hstep : step = calculate_step (sT : ℚ) (eT : ℚ) 100)
    (hs : parse_time_input iso now (start_tok.getD "1min") = .ok sT)
    (he : parse_time_input iso now (end_tok.getD "now") = .ok eT)
    (hle : ¬sT > eT) :
    (exec (pystrip q1) sT eT step = .ok [] →
      exec (pystrip q2) sT eT step = .ok ss →
      stats iso now exec (some qtok) start_tok end_tok label_tok =
        .json (buildResult (processSeries ((labelArgsOf label_tok)[1]?) [] ss))) ∧
    (exec (pystrip q1) sT eT step = .ok ss →
      exec (pystrip q2) sT eT step = .ok [] →
      stats iso now exec (some qtok) start_tok end_tok label_tok =
        .json (buildResult (processSeries ((labelArgsOf label_tok)[0]?) [] ss))) := by
  have hse : ss.isEmpty = false := by
    cases ss with
    | nil => exact absurd rfl hne
    | cons _ _ => rfl
  constructor
  · intro h1 h2
    simp only [stats, if_neg hq, statsBody, hs, he, if_neg hle, hsplit, ← hstep]
    simp [runQueriesAux, h1, h2, hse]
  · intro h1 h2
    simp only [stats, if_neg hq, statsBody, hs, he, if_neg hle, hsplit, ← hstep]
    simp [runQueriesAux, h1, h2, hse]

/-- C9 witness: the theorem applied to the compound query `"a|b"` where
`"a"` returns no series and `"b"` returns `[seriesEU]`. -/
theorem C9_empty_subquery_witness :
    stats isoModel 0 execEmptyA (some "a|b") (some "5sec") none none =
      .json (buildResult (processSeries ((labelArgsOf none)[1]?) []
        [seriesEU])) :=
  (C9_empty_subquery_partial_result isoModel 0 execEmptyA "a|b" "a" "b"
      (by decide) (some "5sec") none none (-5) 0
      (calculate_step ((-5 : Int) : ℚ) ((0 : Int) : ℚ) 100) [seriesEU]
      (by simp) (by decide) rfl
      (by with_unfolding_all rfl)
      (by with_unfolding_all rfl)
      (by decide)).1
    (by with_unfolding_all rfl)
    (by with_unfolding_all rfl)
